import Mathlib

/-!
Verification of the detection-and-validation pipeline of the document
scanner (validators for Korean identifiers, the regex scanner with its
priority-based overlap exclusion, the global deduplication pass, the risk
aggregator and the masking transform).  Python strings are modelled as
`List Char` (Python indexes by code point), machine integers as `Nat`
(offsets and sums are nonnegative throughout) or `Int` where the source
can go negative.
-/

set_option maxRecDepth 4000

/-- Coerce a string literal to the `List Char` representation used for
Python strings throughout this development. -/
def str (s : String) : List Char := s.data

/-- The ASCII characters matched by the Python regex class `\s`
(`re.sub(r'[-\s]', '', ...)` and `str.strip()`).  Unicode spaces do not
occur in the identifiers under study. -/
def isPySpace (c : Char) : Bool :=
  c = ' ' || c = '\t' || c = '\n' || c = '\r' || c = '\x0b' || c = '\x0c'

/-- Models `re.sub(r'[-\s]', '', value)`. -/
def removeDashSpace (l : List Char) : List Char :=
  l.filter (fun c => !(c = '-' || isPySpace c))

/-- Models `re.sub(r'[^0-9]', '', value)`. -/
def keepDigits (l : List Char) : List Char := l.filter Char.isDigit

/-- Models Python `str.isdigit()` (empty strings are not digit strings). -/
def isdigitStr (l : List Char) : Bool := !l.isEmpty && l.all Char.isDigit

/-- Numeric value of a digit character. -/
def digitVal (c : Char) : Nat := c.toNat - '0'.toNat

/-- Models `int(s)` for a digit-only string. -/
def digitsToNat (l : List Char) : Nat := l.foldl (fun a c => 10 * a + digitVal c) 0

/-- Models `len(set(s)) == 1` for nonempty `s`: all characters equal the head. -/
def allEqHead : List Char → Bool
  | [] => true
  | c :: cs => cs.all (fun x => decide (x = c))

/-- Does `hay` start with `needle`? -/
def startsWithL : List Char → List Char → Bool
  | [], _ => true
  | _ :: _, [] => false
  | a :: as, b :: bs => decide (a = b) && startsWithL as bs

/-- Models the Python substring test `needle in hay`. -/
def containsSub (needle : List Char) : List Char → Bool
  | [] => needle.isEmpty
  | b :: bs => startsWithL needle (b :: bs) || containsSub needle bs

/-- Models `str.lower()` (ASCII; Korean characters are unaffected, as in
Python). -/
def lowerL (l : List Char) : List Char := l.map Char.toLower

/-- Models `str.upper()` (ASCII). -/
def upperL (l : List Char) : List Char := l.map Char.toUpper

/-- Models `str.strip()`. -/
def stripL (l : List Char) : List Char :=
  ((l.dropWhile isPySpace).reverse.dropWhile isPySpace).reverse

/-- Models the regex search `(\d)\1{k-1,}`: some `k` consecutive equal
digit characters occur. -/
def hasSameDigitRun (k : Nat) (l : List Char) : Bool :=
  l.tails.any (fun t =>
    decide (k ≤ t.length) && (t.take k).all Char.isDigit && allEqHead (t.take k))

/-- Stable insertion of `x` after all entries whose key is `≤ key x`. -/
def insertByKey (key : α → Nat) (x : α) : List α → List α
  | [] => [x]
  | y :: ys => if key y ≤ key x then y :: insertByKey key x ys else x :: y :: ys

/-- Models Python `sorted(l, key=key)` (a stable sort). -/
def sortByKey (key : α → Nat) (l : List α) : List α :=
  l.foldl (fun acc x => insertByKey key x acc) []

theorem insertByKey_perm (key : α → Nat) (x : α) (l : List α) :
    (insertByKey key x l).Perm (x :: l) := by
  induction l with
  | nil => simp [insertByKey]
  | cons y ys ih =>
    simp only [insertByKey]
    split
    · exact ((ih.cons y).trans (List.Perm.swap x y ys))
    · exact List.Perm.refl _

theorem sortByKey_perm (key : α → Nat) (l : List α) :
    (sortByKey key l).Perm l := by
  suffices h : ∀ (l : List α) (acc : List α),
      (l.foldl (fun acc x => insertByKey key x acc) acc).Perm (acc ++ l) by
    simpa using h l []
  intro l
  induction l with
  | nil => intro acc; simp
  | cons x xs ih =>
    intro acc
    simp only [List.foldl_cons]
    exact (ih (insertByKey key x acc)).trans
      (((insertByKey_perm key x acc).append_right xs).trans List.perm_middle.symm)

theorem mem_sortByKey (key : α → Nat) (l : List α) (a : α) :
    a ∈ sortByKey key l ↔ a ∈ l :=
  (sortByKey_perm key l).mem_iff

/-!  ## BaseValidator (src/validators/base_validator.py)  -/

def SEQUENTIAL_PATTERNS : List (List Char) :=
  [str "0123456789", str "1234567890", str "123456789", str "234567890",
   str "012345678", str "9876543210", str "987654321", str "876543210",
   str "098765432"]

def TEST_PATTERNS : List (List Char) :=
  [str "123123123", str "111222333", str "333222111", str "112233445",
   str "998877665", str "123321123", str "111000111", str "000111000",
   str "101010101", str "121212121", str "123412341", str "567856785",
   str "123123123123", str "456456456456"]

def RRN_TEST_PATTERNS : List (List Char) :=
  [str "0000000000000", str "1111111111111", str "1234561234567",
   str "9001011234567", str "8001011234567", str "7001011234567"]

def CARD_TEST_PATTERNS : List (List Char) :=
  [str "0000000000000000", str "1111111111111111", str "1234567890123456",
   str "4111111111111111", str "5500000000000004", str "378282246310005"]

/-- Ascending chain mod 10 between each adjacent pair. -/
def seqAsc : List Char → Bool
  | [] => true
  | [_] => true
  | a :: b :: rest => decide (digitVal b = (digitVal a + 1) % 10) && seqAsc (b :: rest)

/-- Descending chain mod 10; Python computes `(prev - 1) % 10`, which for
nonnegative `prev` equals `(prev + 9) % 10`. -/
def seqDesc : List Char → Bool
  | [] => true
  | [_] => true
  | a :: b :: rest => decide (digitVal b = (digitVal a + 9) % 10) && seqDesc (b :: rest)

/-- Models `BaseValidator._is_sequential`.  The Python loop tracks both
directions simultaneously and returns `is_ascending or is_descending`,
which equals this disjunction of whole-chain checks. -/
def isSequentialDigits (digits : List Char) : Bool :=
  if digits.length < 6 then false else seqAsc digits || seqDesc digits

/-- Models `BaseValidator._is_two_digit_repeat`. -/
def isTwoDigitRepeat (digits : List Char) : Bool :=
  if digits.length < 6 then false
  else
    match digits with
    | a :: b :: _ =>
      if a = b then false
      else decide (digits = (List.flatten (List.replicate (digits.length / 2 + 1) [a, b])).take digits.length)
    | _ => false

/-- Models `BaseValidator.is_invalid_pattern`. -/
def is_invalid_pattern (value : List Char) : Bool :=
  let d := keepDigits value
  if d.isEmpty then true
  else if d.length < 6 then false
  else if allEqHead d then true
  else if SEQUENTIAL_PATTERNS.any (fun seq => decide (d = seq) || (decide (6 ≤ d.length) && containsSub d seq)) then true
  else if isSequentialDigits d then true
  else if TEST_PATTERNS.any (fun p => decide (d = p)) then true
  else if isTwoDigitRepeat d then true
  else false

/-- Models `BaseValidator.is_test_rrn`. -/
def is_test_rrn (value : List Char) : Bool :=
  let n := keepDigits value
  if is_invalid_pattern n then true
  else if RRN_TEST_PATTERNS.any (fun p => decide (n = p)) then true
  else if decide (6 ≤ n.length) && allEqHead (n.take 6) then true
  else if decide (13 ≤ n.length) && allEqHead ((n.drop 6).take 7) then true
  else if decide (13 ≤ n.length) && isSequentialDigits ((n.drop 6).take 7) then true
  else false

/-- Models `BaseValidator.is_test_card`. -/
def is_test_card (value : List Char) : Bool :=
  let n := keepDigits value
  is_invalid_pattern n || CARD_TEST_PATTERNS.any (fun p => decide (n = p))

/-!  ## RRNValidator (src/validators/rrn_validator.py)  -/

def RRN_CHECKSUM_WEIGHTS : List Nat := [2, 3, 4, 5, 6, 7, 8, 9, 2, 3, 4, 5]

/-- Models `RRNValidator._is_valid_date` (month in 1..12, day within the
per-month cap, February capped at 29 with no leap-year check here). -/
def rrn_is_valid_date (digits : List Char) : Bool :=
  let month := digitsToNat ((digits.drop 2).take 2)
  let day := digitsToNat ((digits.drop 4).take 2)
  if month < 1 || 12 < month then false
  else if day < 1 || ([31,29,31,30,31,30,31,31,30,31,30,31].getD (month - 1) 0) < day then false
  else true

/-- Models `RRNValidator.validate`. -/
def rrn_validate (value : List Char) : Bool :=
  let d := removeDashSpace value
  if d.length ≠ 13 then false
  else if !isdigitStr d then false
  else if !rrn_is_valid_date d then false
  else decide (digitVal (d.getD 6 ' ') ∈ [1, 2, 3, 4])

/-- Models `RRNValidator.get_birth_date` up to the `date(...)` constructor:
the decoded (year, month, day) triple, century chosen by the gender digit. -/
def rrn_birth_triple (value : List Char) : Nat × Nat × Nat :=
  let d := removeDashSpace value
  let year := digitsToNat (d.take 2)
  let month := digitsToNat ((d.drop 2).take 2)
  let day := digitsToNat ((d.drop 4).take 2)
  let gender := digitVal (d.getD 6 ' ')
  let y := if gender ∈ [1, 2, 5, 6] then 1900 + year
           else if gender ∈ [3, 4, 7, 8] then 2000 + year
           else 1800 + year
  (y, month, day)

def isLeapYear (y : Nat) : Bool :=
  decide (y % 4 = 0) && (decide (y % 100 ≠ 0) || decide (y % 400 = 0))

def daysInMonth (y m : Nat) : Nat :=
  if m = 2 then (if isLeapYear y then 29 else 28)
  else if m ∈ [4, 6, 9, 11] then 30 else 31

/-- Does Python `datetime.date(y, m, d)` succeed?  (Years decoded from an
RRN lie in 1800..2099, inside the 1..9999 range `date` accepts.) -/
def dateExistsB (t : Nat × Nat × Nat) : Bool :=
  decide (1 ≤ t.2.1) && decide (t.2.1 ≤ 12) &&
  decide (1 ≤ t.2.2) && decide (t.2.2 ≤ daysInMonth t.1 t.2.1)

/-- Lexicographic order on (year, month, day), as `date.__lt__`. -/
def dateLtB (a b : Nat × Nat × Nat) : Bool :=
  decide (a.1 < b.1) ||
  (decide (a.1 = b.1) &&
    (decide (a.2.1 < b.2.1) || (decide (a.2.1 = b.2.1) && decide (a.2.2 < b.2.2))))

def CHECKSUM_CUTOFF : Nat × Nat × Nat := (2020, 10, 1)

/-- Models `RRNValidator.is_checksum_applicable`.  The Python body wraps
`get_birth_date` (including the `date` constructor) in try/except and
returns `False` on any failure: a failure happens exactly when a needed
slice is not all digits, the 7th digit is missing, or the decoded triple
is not a real calendar date. -/
def rrn_checksum_applicable (value : List Char) : Bool :=
  let d := removeDashSpace value
  if !(isdigitStr (d.take 2) && isdigitStr ((d.drop 2).take 2) &&
       isdigitStr ((d.drop 4).take 2) && decide (7 ≤ d.length) && (d.getD 6 ' ').isDigit) then false
  else if !dateExistsB (rrn_birth_triple value) then false
  else dateLtB (rrn_birth_triple value) CHECKSUM_CUTOFF

/-- Models `RRNValidator.verify_checksum`. -/
def rrn_verify_checksum (value : List Char) : Bool :=
  let d := removeDashSpace value
  if d.length ≠ 13 || !isdigitStr d then false
  else
    let total := (List.zipWith (fun c w => digitVal c * w) (d.take 12) RRN_CHECKSUM_WEIGHTS).foldl (· + ·) 0
    decide ((11 - total % 11) % 10 = digitVal (d.getD 12 ' '))

/-- Models `RRNValidator.validate_full`. -/
def rrn_validate_full (value : List Char) : Bool × List Char :=
  if is_test_rrn value then (false, [])
  else if !rrn_validate value then (false, [])
  else if rrn_checksum_applicable value then
    (if rrn_verify_checksum value then (true, str "주민등록번호") else (false, []))
  else (true, str "주민등록번호(의심)")

/-- C1 (amended): for a 13-digit value that passes the RRN format check
(valid date, gender digit 1..4) and decodes to a birth date before
2020-10-01, `validate_full` returns `(True, "주민등록번호")` when the value
additionally clears the dummy-pattern filter and its 13th digit satisfies
the weighted checksum, and `(False, "")` (full rejection) whenever the
checksum fails — in particular when the check digit is flipped. -/
theorem thm_C1_rrn_checksum (v : List Char)
    (hval : rrn_validate v = true) (happ : rrn_checksum_applicable v = true) :
    (is_test_rrn v = false → rrn_verify_checksum v = true →
      rrn_validate_full v = (true, str "주민등록번호"))
    ∧ (rrn_verify_checksum v = false → rrn_validate_full v = (false, [])) := by
  constructor
  · intro ht hc
    simp [rrn_validate_full, ht, hval, happ, hc]
  · intro hc
    by_cases ht : is_test_rrn v = true
    · simp [rrn_validate_full, ht]
    · simp only [Bool.not_eq_true] at ht
      simp [rrn_validate_full, ht, hval, happ, hc]

/-- C1 witness: the concrete pre-cutoff value 9001021023451 passes format,
filter and checksum and is accepted as a definite RRN. -/
theorem wit_C1_rrn_checksum :
    rrn_validate_full (str "9001021023451") = (true, str "주민등록번호") :=
  (thm_C1_rrn_checksum (str "9001021023451") (by decide) (by decide)).1
    (by decide) (by decide)

/-- C1 counterexample: 9001091234567 is a 13-digit string with a valid
pre-cutoff birth date (1990-01-09) whose 13th digit equals the weighted
checksum, yet `validate_full` rejects it outright — its trailing seven
digits 1234567 trip the dummy-pattern filter, which the claim omits. -/
theorem cex_C1_rrn_checksum :
    rrn_validate (str "9001091234567") = true
    ∧ dateExistsB (rrn_birth_triple (str "9001091234567")) = true
    ∧ dateLtB (rrn_birth_triple (str "9001091234567")) CHECKSUM_CUTOFF = true
    ∧ rrn_verify_checksum (str "9001091234567") = true
    ∧ rrn_validate_full (str "9001091234567") = (false, []) := by
  decide

/-- C2: any value that clears the dummy-pattern filter and the RRN format
check and whose decoded birth date exists and is on or after 2020-10-01 is
classified `(True, "주민등록번호(의심)")`, independently of the checksum. -/
theorem thm_C2_rrn_post_cutoff (v : List Char)
    (ht : is_test_rrn v = false) (hval : rrn_validate v = true)
    (hex : dateExistsB (rrn_birth_triple v) = true)
    (hge : dateLtB (rrn_birth_triple v) CHECKSUM_CUTOFF = false) :
    rrn_validate_full v = (true, str "주민등록번호(의심)") := by
  have happ : rrn_checksum_applicable v = false := by
    unfold rrn_checksum_applicable
    simp [hex, hge]
  simp [rrn_validate_full, ht, hval, happ]

/-- C2 witness: the post-cutoff example 201015-3123456 from the spec. -/
theorem wit_C2_rrn_post_cutoff :
    rrn_validate_full (str "201015-3123456") = (true, str "주민등록번호(의심)") :=
  thm_C2_rrn_post_cutoff (str "201015-3123456")
    (by decide) (by decide) (by decide) (by decide)

/-!  ## DriverLicenseValidator (src/validators/driver_license_validator.py)  -/

def DL_VALID_REGION_CODES : List Nat :=
  [11, 12, 13, 14, 15, 16, 17, 18, 19, 20, 21, 22, 23, 24, 25, 26, 28]

def DL_INVALID_SERIAL_PATTERNS : List (List Char) :=
  [str "000000", str "111111", str "222222", str "333333", str "444444",
   str "555555", str "666666", str "777777", str "888888", str "999999",
   str "123456", str "234567", str "345678", str "456789",
   str "654321", str "765432", str "876543", str "987654",
   str "012345", str "543210"]

def DL_INVALID_FULL_PATTERNS : List (List Char) :=
  [str "000000000000", str "111111111111", str "222222222222",
   str "333333333333", str "444444444444", str "555555555555",
   str "666666666666", str "777777777777", str "888888888888",
   str "999999999999", str "123456789012", str "012345678901",
   str "210987654321", str "109876543210"]

def DL_CHECKSUM_WEIGHTS : List Nat := [2, 3, 4, 5, 6, 7, 8, 9, 2, 3]

/-- Models `DriverLicenseInvalidFilter.check` (returning only the boolean
`is_invalid` component; the reason string is not used by callers).  Note
the source strips only `'-'` and `' '` here, not all whitespace. -/
def dl_filter_check (license_number : List Char) : Bool :=
  if license_number.isEmpty then true
  else
    let cleaned := license_number.filter (fun c => !(c = '-' || c = ' '))
    if cleaned.length ≠ 12 then true
    else if !isdigitStr cleaned then true
    else if DL_INVALID_FULL_PATTERNS.any (fun p => decide (cleaned = p)) then true
    else if hasSameDigitRun 10 cleaned then true
    else
      let serial := (cleaned.drop 4).take 6
      if DL_INVALID_SERIAL_PATTERNS.any (fun p => decide (serial = p)) then true
      else if hasSameDigitRun 5 serial then true
      else false

/-- Models `DriverLicenseValidator.validate`. -/
def dl_validate (value : List Char) : Bool :=
  let d := removeDashSpace value
  if d.length ≠ 12 then false
  else if !isdigitStr d then false
  else decide (digitsToNat (d.take 2) ∈ DL_VALID_REGION_CODES)

/-- Models `DriverLicenseValidator.verify_checksum`. -/
def dl_verify_checksum (value : List Char) : Bool :=
  let d := removeDashSpace value
  if d.length ≠ 12 || !isdigitStr d then false
  else
    let total := (List.zipWith (fun c w => digitVal c * w) (d.take 10) DL_CHECKSUM_WEIGHTS).foldl (· + ·) 0
    decide (total % 100 = digitsToNat (d.drop 10))

/-- Models `DriverLicenseValidator.validate_full`. -/
def dl_validate_full (value : List Char) : Bool × List Char :=
  if !dl_validate value then (false, [])
  else
    let digits := removeDashSpace value
    if dl_filter_check digits then (false, [])
    else if dl_verify_checksum value then (true, str "운전면허번호")
    else (true, str "운전면허번호(의심)")

/-- C3: a 12-digit driver-license number with a valid region code that
clears the dedicated invalid-pattern filter but fails the check-digit
verification is reported `(True, "운전면허번호(의심)")`, never `False`. -/
theorem thm_C3_dl_suspect (v : List Char)
    (hval : dl_validate v = true)
    (hfil : dl_filter_check (removeDashSpace v) = false)
    (hchk : dl_verify_checksum v = false) :
    dl_validate_full v = (true, str "운전면허번호(의심)") := by
  simp [dl_validate_full, hval, hfil, hchk]

/-- C3 witness: 112312345740 (region 11, serial 123457, check digits 40
where the weighted sum demands 39) is structurally valid, clears the
filter, fails the checksum, and is reported as a suspect license. -/
theorem wit_C3_dl_suspect :
    dl_validate_full (str "112312345740") = (true, str "운전면허번호(의심)") :=
  thm_C3_dl_suspect (str "112312345740") (by decide) (by decide) (by decide)

/-!  ## CardValidator (src/validators/card_validator.py)  -/

/-- Models `CardValidator._is_sequential`: the digit string equals a prefix
of the ascending chain `str(i % 10)` or the descending chain
`str((10 - i) % 10)` (Python modulo on possibly negative `10 - i`). -/
def card_is_sequential (digits : List Char) : Bool :=
  let asc := (List.range digits.length).map (fun i => Char.ofNat ('0'.toNat + i % 10))
  let desc := (List.range digits.length).map
    (fun i => Char.ofNat ('0'.toNat + (((10 - (i : Int)) % 10).toNat)))
  decide (digits = asc) || decide (digits = desc)

/-- Models `CardValidator.validate`. -/
def card_validate (value : List Char) : Bool :=
  let d := removeDashSpace value
  if d.length < 15 || 16 < d.length then false
  else if !isdigitStr d then false
  else if allEqHead d then false
  else if card_is_sequential d then false
  else true

/-- Models `CardValidator.verify_luhn`.  `overlap` note: the index parity
test is on the position in the reversed digit string, doubling entries at
odd 0-based indices. -/
def verify_luhn (value : List Char) : Bool :=
  let d := removeDashSpace value
  if !isdigitStr d then false
  else
    let total : Nat := (d.reverse.enum.map (fun p =>
      let n := digitVal p.2
      if p.1 % 2 = 1 then (let m := 2 * n; if 9 < m then m - 9 else m) else n)).foldl (· + ·) 0
    decide (total % 10 = 0)

/-- Models `CardValidator.validate_full`. -/
def card_validate_full (value : List Char) : Bool × List Char :=
  if is_test_card value then (false, [])
  else if !card_validate value then (false, [])
  else if verify_luhn value then (true, str "카드번호")
  else (false, [])

/-- Separator characters removed by `verify_luhn` before checking: hyphen
and the regex `\s` class. -/
def isLuhnSep (c : Char) : Bool := c = '-' || isPySpace c

theorem removeDashSpace_eq_filter (l : List Char) :
    removeDashSpace l = l.filter (fun c => !isLuhnSep c) := by
  simp [removeDashSpace, isLuhnSep]

/-- C9 (amended): for a well-formed 15- or 16-digit card number `x`,
`verify_luhn` is unchanged by inserting hyphen or whitespace separators at
any positions (these are the only separators the implementation strips;
other non-digit separators make it return `False`). -/
theorem thm_C9_luhn_separators (x y : List Char)
    (hd : x.all Char.isDigit = true) (h15 : 15 ≤ x.length) (h16 : x.length ≤ 16)
    (hy : y.filter (fun c => !isLuhnSep c) = x) :
    verify_luhn y = verify_luhn x := by
  have hx : removeDashSpace x = x := by
    rw [removeDashSpace_eq_filter, ← hy, List.filter_filter]
    simp
  have hy' : removeDashSpace y = x := by rw [removeDashSpace_eq_filter, hy]
  unfold verify_luhn
  rw [hy', hx]

/-- C9 witness: the classic Luhn-valid 16-digit number with hyphens and a
space inserted validates identically to its bare form. -/
theorem wit_C9_luhn_separators :
    verify_luhn (str "4111-1111 1111-1111") = verify_luhn (str "4111111111111111") :=
  thm_C9_luhn_separators (str "4111111111111111") (str "4111-1111 1111-1111")
    (by decide) (by decide) (by decide) (by decide)

/-- C9 counterexample: the claim as stated ranges over any non-digit
separator; inserting a dot makes `verify_luhn` return `False` even though
the bare 16-digit number is Luhn-valid, because only hyphens and
whitespace are stripped. -/
theorem cex_C9_luhn_separators :
    verify_luhn (str "4111111111111111") = true
    ∧ (str "4111.111111111111").filter Char.isDigit = str "4111111111111111"
    ∧ verify_luhn (str "4111.111111111111") = false := by
  decide

/-!  ## Merged detection records (src/core/analyzer.py)

A detected span as it flows through the merge/dedup/scoring/masking
stages.  The Python dicts carry further keys (context, method, ...) that
none of these stages read; `score` is `none` when the `'score'` key is
absent (`item.get('score', 10)`). -/

structure Item where
  type : List Char
  value : List Char
  start : Nat
  stop : Nat
  legal_category : List Char
  score : Option Nat
deriving DecidableEq

/-!  ## Risk aggregator (`_create_analysis_from_detected`)  -/

/-- The six keys the Python `category_counts` dict starts from. -/
def SIX_CATEGORY_KEYS : List (List Char) :=
  [str "고유식별정보", str "민감정보", str "금융정보", str "기업기밀",
   str "사용자정의", str "일반개인정보"]

/-- One iteration of the tally loop of `_create_analysis_from_detected`:
`category_counts[cat] += 1` (the dict as a function) and the accumulated
user-pattern score. -/
def tallyStep (st : (List Char → Nat) × Nat) (i : Item) : (List Char → Nat) × Nat :=
  ((fun c => if c = i.legal_category then st.1 c + 1 else st.1 c),
   if i.legal_category = str "사용자정의" then st.2 + i.score.getD 10 else st.2)

/-- The tally loop of `_create_analysis_from_detected`. -/
def tallyCats (items : List Item) : (List Char → Nat) × Nat :=
  items.foldl tallyStep ((fun _ => 0), 0)

/-- Recording a key in the Python `category_counts` dict: new keys are
appended in first-occurrence order. -/
def catKeysStep (ks : List (List Char)) (i : Item) : List (List Char) :=
  if i.legal_category ∈ ks then ks else ks ++ [i.legal_category]

/-- The key set of the Python `category_counts` dict: the six fixed keys
followed by any further categories in first-occurrence order. -/
def catKeys (items : List Item) : List (List Char) :=
  items.foldl catKeysStep SIX_CATEGORY_KEYS

/-- Models the risk-score computation of `_create_analysis_from_detected`:
weighted category counts plus the user-pattern scores, a breadth bonus
over `active_categories` (the dict values that are positive), a volume
bonus over the total count, capped at 100. -/
def riskScoreOf (items : List Item) : Nat :=
  let cnt := (tallyCats items).1
  let userScore := (tallyCats items).2
  let base := cnt (str "고유식별정보") * 20 + cnt (str "금융정보") * 15
    + cnt (str "민감정보") * 12 + cnt (str "기업기밀") * 12 + userScore
    + cnt (str "일반개인정보") * 5
  let active := ((catKeys items).filter (fun k => 0 < cnt k)).length
  let withBreadth := base + (if 3 ≤ active then 20 else if 2 ≤ active then 10 else 0)
  let total := withBreadth +
    (if 50 ≤ items.length then 15 else if 20 ≤ items.length then 10
     else if 10 ≤ items.length then 5 else 0)
  min total 100

/-- Models the risk-level classification of
`_create_analysis_from_detected`. -/
def riskLevelOf (s : Nat) : List Char :=
  if 75 ≤ s then str "심각"
  else if 50 ≤ s then str "높음"
  else if 25 ≤ s then str "보통"
  else str "낮음"

theorem foldl_tallyStep_fst (c : List Char) :
    ∀ (l : List Item) (st : (List Char → Nat) × Nat),
      (l.foldl tallyStep st).1 c = st.1 c + l.countP (fun i => decide (i.legal_category = c)) := by
  intro l
  induction l with
  | nil => intro st; simp
  | cons i is ih =>
    intro st
    simp only [List.foldl_cons, List.countP_cons]
    rw [ih]
    simp only [tallyStep]
    by_cases h : c = i.legal_category
    · subst h
      simp
      omega
    · have h' : ¬(i.legal_category = c) := fun hh => h hh.symm
      simp [h, h']

theorem tallyCats_fst (items : List Item) (c : List Char) :
    (tallyCats items).1 c = items.countP (fun i => i.legal_category = c) := by
  rw [tallyCats, foldl_tallyStep_fst]
  simp

theorem foldl_tallyStep_snd :
    ∀ (l : List Item) (st : (List Char → Nat) × Nat),
      (l.foldl tallyStep st).2 = st.2 +
        ((l.filter (fun i => decide (i.legal_category = str "사용자정의"))).map
          (fun i => i.score.getD 10)).sum := by
  intro l
  induction l with
  | nil => intro st; simp
  | cons i is ih =>
    intro st
    simp only [List.foldl_cons, List.filter_cons]
    rw [ih]
    simp only [tallyStep]
    by_cases h : i.legal_category = str "사용자정의"
    · simp [h, Nat.add_assoc]
    · simp [h]

theorem tallyCats_snd (items : List Item) :
    (tallyCats items).2 =
      ((items.filter (fun i => i.legal_category = str "사용자정의")).map
        (fun i => i.score.getD 10)).sum := by
  rw [tallyCats, foldl_tallyStep_snd]
  simp

theorem foldl_catKeysStep_spec :
    ∀ (l : List Item) (ks : List (List Char)), ks.Nodup →
      (l.foldl catKeysStep ks).Nodup
      ∧ (∀ k, k ∈ l.foldl catKeysStep ks ↔ k ∈ ks ∨ k ∈ l.map Item.legal_category) := by
  intro l
  induction l with
  | nil => intro ks hks; simpa using hks
  | cons i is ih =>
    intro ks hks
    simp only [List.foldl_cons, catKeysStep]
    by_cases h : i.legal_category ∈ ks
    · rw [if_pos h]
      refine ⟨(ih ks hks).1, fun k => ?_⟩
      rw [(ih ks hks).2 k]
      simp only [List.map_cons, List.mem_cons]
      constructor
      · rintro (hk | hk)
        · exact Or.inl hk
        · exact Or.inr (Or.inr hk)
      · rintro (hk | hk | hk)
        · exact Or.inl hk
        · exact Or.inl (hk ▸ h)
        · exact Or.inr hk
    · rw [if_neg h]
      have hks' : (ks ++ [i.legal_category]).Nodup := by
        simp [List.nodup_append, hks, h]
      refine ⟨(ih _ hks').1, fun k => ?_⟩
      rw [(ih _ hks').2 k]
      simp only [List.mem_append, List.mem_singleton, List.map_cons, List.mem_cons]
      tauto

theorem active_categories_eq (items : List Item) :
    ((catKeys items).filter (fun k => 0 < (tallyCats items).1 k)).length
      = (items.map Item.legal_category).toFinset.card := by
  obtain ⟨hnd, hmem⟩ := foldl_catKeysStep_spec items SIX_CATEGORY_KEYS (by decide)
  rw [catKeys] at *
  have hpred : ∀ k ∈ items.foldl catKeysStep SIX_CATEGORY_KEYS,
      (decide (0 < (tallyCats items).1 k)) = (decide (k ∈ items.map Item.legal_category)) := by
    intro k _
    rw [tallyCats_fst]
    by_cases h : k ∈ items.map Item.legal_category
    · obtain ⟨i, hi, hik⟩ := List.mem_map.mp h
      have : 0 < items.countP (fun i => decide (i.legal_category = k)) := by
        rw [List.countP_pos_iff]
        exact ⟨i, hi, by simp [hik]⟩
      simp [this, h]
    · have : items.countP (fun i => decide (i.legal_category = k)) = 0 := by
        rw [List.countP_eq_zero]
        intro i hi
        simp only [decide_eq_true_eq]
        intro hik
        exact h (List.mem_map.mpr ⟨i, hi, hik⟩)
      simp [this, h]
  rw [List.filter_congr hpred]
  have hnd' : ((items.foldl catKeysStep SIX_CATEGORY_KEYS).filter
      (fun k => decide (k ∈ items.map Item.legal_category))).Nodup :=
    hnd.filter _
  rw [← List.toFinset_card_of_nodup hnd']
  congr 1
  ext k
  simp only [List.mem_toFinset, List.mem_filter, decide_eq_true_eq]
  exact ⟨fun hk => hk.2, fun hk => ⟨(hmem k).mpr (Or.inr hk), hk⟩⟩

/-- The risk score in closed form (shared bridge between the aggregator
embedding and the specified formula). -/
theorem riskScoreOf_eq (items : List Item) :
    riskScoreOf items =
      min (20 * items.countP (fun i => i.legal_category = str "고유식별정보")
        + 15 * items.countP (fun i => i.legal_category = str "금융정보")
        + 12 * items.countP (fun i => i.legal_category = str "민감정보")
        + 12 * items.countP (fun i => i.legal_category = str "기업기밀")
        + 5 * items.countP (fun i => i.legal_category = str "일반개인정보")
        + ((items.filter (fun i => i.legal_category = str "사용자정의")).map
            (fun i => i.score.getD 10)).sum
        + (if 3 ≤ (items.map Item.legal_category).toFinset.card then 20
           else if 2 ≤ (items.map Item.legal_category).toFinset.card then 10 else 0)
        + (if 50 ≤ items.length then 15 else if 20 ≤ items.length then 10
           else if 10 ≤ items.length then 5 else 0)) 100 := by
  simp only [riskScoreOf]
  rw [active_categories_eq, tallyCats_snd,
    tallyCats_fst items (str "고유식별정보"), tallyCats_fst items (str "금융정보"),
    tallyCats_fst items (str "민감정보"), tallyCats_fst items (str "기업기밀"),
    tallyCats_fst items (str "일반개인정보")]
  congr 1
  omega

/-- C6: the aggregated risk score is the weighted category-count sum plus
the custom-pattern scores, the breadth bonus and the volume bonus, capped
at 100; the level is 심각 at 75+, 높음 at 50+, 보통 at 25+, else 낮음. -/
theorem thm_C6_risk_formula (items : List Item) :
    riskScoreOf items =
      min (20 * items.countP (fun i => i.legal_category = str "고유식별정보")
        + 15 * items.countP (fun i => i.legal_category = str "금융정보")
        + 12 * items.countP (fun i => i.legal_category = str "민감정보")
        + 12 * items.countP (fun i => i.legal_category = str "기업기밀")
        + 5 * items.countP (fun i => i.legal_category = str "일반개인정보")
        + ((items.filter (fun i => i.legal_category = str "사용자정의")).map
            (fun i => i.score.getD 10)).sum
        + (if 3 ≤ (items.map Item.legal_category).toFinset.card then 20
           else if 2 ≤ (items.map Item.legal_category).toFinset.card then 10 else 0)
        + (if 50 ≤ items.length then 15 else if 20 ≤ items.length then 10
           else if 10 ≤ items.length then 5 else 0)) 100
    ∧ riskLevelOf (riskScoreOf items) =
        (if 75 ≤ riskScoreOf items then str "심각"
         else if 50 ≤ riskScoreOf items then str "높음"
         else if 25 ≤ riskScoreOf items then str "보통"
         else str "낮음") :=
  ⟨riskScoreOf_eq items, rfl⟩

theorem breadth_bonus_mono {a b : Nat} (h : a ≤ b) :
    (if 3 ≤ a then 20 else if 2 ≤ a then 10 else 0)
      ≤ (if 3 ≤ b then (20 : Nat) else if 2 ≤ b then 10 else 0) := by
  split_ifs <;> omega

theorem volume_bonus_mono {a b : Nat} (h : a ≤ b) :
    (if 50 ≤ a then 15 else if 20 ≤ a then 10 else if 10 ≤ a then 5 else 0)
      ≤ (if 50 ≤ b then (15 : Nat) else if 20 ≤ b then 10 else if 10 ≤ b then 5 else 0) := by
  split_ifs <;> omega

/-- C7: appending any further detected span never decreases the risk
score (every weight is nonnegative and both bonuses are monotone). -/
theorem thm_C7_risk_monotone (items : List Item) (x : Item) :
    riskScoreOf items ≤ riskScoreOf (items ++ [x]) := by
  rw [riskScoreOf_eq, riskScoreOf_eq]
  refine min_le_min ?_ le_rfl
  have hcard : (items.map Item.legal_category).toFinset.card
      ≤ ((items ++ [x]).map Item.legal_category).toFinset.card := by
    apply Finset.card_le_card
    intro k hk
    simp only [List.map_append, List.toFinset_append, Finset.mem_union]
    exact Or.inl hk
  have hb := breadth_bonus_mono hcard
  have hlen : items.length ≤ (items ++ [x]).length := by simp
  have hv := volume_bonus_mono hlen
  have h1 : (items ++ [x]).countP (fun i => decide (i.legal_category = str "고유식별정보"))
      = items.countP (fun i => decide (i.legal_category = str "고유식별정보"))
        + ([x]).countP (fun i => decide (i.legal_category = str "고유식별정보")) := by
    rw [List.countP_append]
  have h2 : (items ++ [x]).countP (fun i => decide (i.legal_category = str "금융정보"))
      = items.countP (fun i => decide (i.legal_category = str "금융정보"))
        + ([x]).countP (fun i => decide (i.legal_category = str "금융정보")) := by
    rw [List.countP_append]
  have h3 : (items ++ [x]).countP (fun i => decide (i.legal_category = str "민감정보"))
      = items.countP (fun i => decide (i.legal_category = str "민감정보"))
        + ([x]).countP (fun i => decide (i.legal_category = str "민감정보")) := by
    rw [List.countP_append]
  have h4 : (items ++ [x]).countP (fun i => decide (i.legal_category = str "기업기밀"))
      = items.countP (fun i => decide (i.legal_category = str "기업기밀"))
        + ([x]).countP (fun i => decide (i.legal_category = str "기업기밀")) := by
    rw [List.countP_append]
  have h5 : (items ++ [x]).countP (fun i => decide (i.legal_category = str "일반개인정보"))
      = items.countP (fun i => decide (i.legal_category = str "일반개인정보"))
        + ([x]).countP (fun i => decide (i.legal_category = str "일반개인정보")) := by
    rw [List.countP_append]
  have hs : (((items ++ [x]).filter (fun i => decide (i.legal_category = str "사용자정의"))).map
      (fun i => i.score.getD 10)).sum
      = ((items.filter (fun i => decide (i.legal_category = str "사용자정의"))).map
          (fun i => i.score.getD 10)).sum
        + (([x].filter (fun i => decide (i.legal_category = str "사용자정의"))).map
          (fun i => i.score.getD 10)).sum := by
    rw [List.filter_append, List.map_append, List.sum_append]
  omega

/-!  ## Global deduplication (`_deduplicate_sensitive_results`)  -/

/-- The overlap test of the dedup walk: the overlap with an accepted span
strictly exceeds half of the candidate span (Python compares the exact
float `overlap_len / item_len` against `0.5`, which for these magnitudes
equals the integer comparison `item_len < 2 * overlap_len`). -/
def overlapMoreThanHalf (item ex : Item) : Bool :=
  let overlap_len := min item.stop ex.stop - max item.start ex.start
  let item_len := item.stop - item.start
  decide (0 < item_len) && decide (item_len < 2 * overlap_len)

/-- One iteration of the `_deduplicate_sensitive_results` walk, carrying
`(seen_values, deduplicated)`. -/
def dedupStep (st : List (List Char) × List Item) (item : Item) : List (List Char) × List Item :=
  let value_key := item.value.take 50
  if value_key ∈ st.1 then st
  else if st.2.any (fun ex => overlapMoreThanHalf item ex) then st
  else (value_key :: st.1, st.2 ++ [item])

/-- Models `_deduplicate_sensitive_results` (the empty-input early return
coincides with the fold on the empty list). -/
def deduplicate_sensitive_results (results : List Item) : List Item :=
  ((sortByKey Item.start results).foldl dedupStep ([], [])).2

/-- C4 (amended): of two spans in start order, the later candidate is
dropped exactly when its value key (first 50 characters) repeats the
accepted one or its overlap with the accepted span strictly exceeds 50%
of its own length; at exactly 50% or below (with distinct keys) both are
retained. -/
theorem thm_C4_dedup_pair (a b : Item) (hab : a.start ≤ b.start) :
    deduplicate_sensitive_results [a, b] =
      (if b.value.take 50 = a.value.take 50 ∨ overlapMoreThanHalf b a = true
       then [a] else [a, b]) := by
  have hsort : sortByKey Item.start [a, b] = [a, b] := by
    simp [sortByKey, insertByKey, hab]
  unfold deduplicate_sensitive_results
  rw [hsort]
  simp only [List.foldl_cons, List.foldl_nil]
  have hstep1 : dedupStep ([], []) a = ([a.value.take 50], [a]) := by
    simp [dedupStep]
  rw [hstep1]
  by_cases hkey : b.value.take 50 = a.value.take 50
  · simp [dedupStep, hkey]
  · by_cases hov : overlapMoreThanHalf b a = true
    · simp [dedupStep, hkey, hov]
    · simp only [Bool.not_eq_true] at hov
      simp [dedupStep, hkey, hov]

/-- C4 witness: spans [0,4) and [3,7) overlap by one character (25% of
the candidate) and carry distinct values, so both are retained. -/
theorem wit_C4_dedup_pair :
    deduplicate_sensitive_results
      [⟨str "이름", str "wxyz", 0, 4, str "일반개인정보", none⟩,
       ⟨str "이름", str "stuv", 3, 7, str "일반개인정보", none⟩] =
      [⟨str "이름", str "wxyz", 0, 4, str "일반개인정보", none⟩,
       ⟨str "이름", str "stuv", 3, 7, str "일반개인정보", none⟩] := by
  rw [thm_C4_dedup_pair _ _ (by decide)]
  decide

/-- C4 counterexample: two length-4 spans [0,4) and [2,6) overlap by
exactly 2 characters — exactly 50% of either span — and the engine keeps
BOTH, refuting the claim that at 50%-or-more overlap exactly one span is
retained (the implementation drops only on strictly-more-than-50%). -/
theorem cex_C4_dedup_pair :
    deduplicate_sensitive_results
      [⟨str "이름", str "abcd", 0, 4, str "일반개인정보", none⟩,
       ⟨str "이름", str "cdef", 2, 6, str "일반개인정보", none⟩] =
      [⟨str "이름", str "abcd", 0, 4, str "일반개인정보", none⟩,
       ⟨str "이름", str "cdef", 2, 6, str "일반개인정보", none⟩]
    ∧ 2 * (min (6 : Nat) 4 - max 2 0) = 6 - 2
    ∧ 2 * (min (4 : Nat) 6 - max 0 2) = 4 - 0 := by
  decide

/-!  ## Masking transform (`mask_sensitive_info`)  -/

/-- Models Python `str.split(sep)` for a single-character separator. -/
def splitOnChar (sep : Char) : List Char → List (List Char)
  | [] => [[]]
  | x :: xs =>
    match splitOnChar sep xs with
    | [] => [[]]
    | p :: ps => if x = sep then [] :: p :: ps else (x :: p) :: ps

theorem splitOnChar_sum (sep : Char) : ∀ l : List Char,
    ((splitOnChar sep l).map List.length).sum + (splitOnChar sep l).length = l.length + 1 := by
  intro l
  induction l with
  | nil => simp [splitOnChar]
  | cons x xs ih =>
    simp only [splitOnChar]
    cases h : splitOnChar sep xs with
    | nil =>
      rw [h] at ih
      simp only [List.map_nil, List.sum_nil, List.length_nil] at ih
      omega
    | cons p ps =>
      rw [h] at ih
      by_cases hx : x = sep
      · simp only [if_pos hx]
        simp only [List.map_cons, List.sum_cons, List.length_cons, List.length_nil,
          List.length_cons] at ih ⊢
        omega
      · simp only [if_neg hx]
        simp only [List.map_cons, List.sum_cons, List.length_cons] at ih ⊢
        omega

/-- The per-type mask of `mask_sensitive_info`: identifiers and financial
numbers keep their first 4 characters, hyphenated 3-part phone numbers
lose their middle group, emails keep the first character and the domain,
everything else is fully starred.  (The Python locals `parts` and
`at_pos` are inlined.) -/
def maskValue (info_type value : List Char) : List Char :=
  if info_type ∈ [str "주민등록번호", str "여권번호", str "운전면허번호", str "외국인등록번호"] then
    value.take 4 ++ List.replicate (value.length - 4) '*'
  else if info_type ∈ [str "카드번호", str "계좌번호"] then
    value.take 4 ++ List.replicate (value.length - 4) '*'
  else if info_type ∈ [str "전화번호", str "휴대전화"] then
    (if (splitOnChar '-' value).length = 3 then
       (splitOnChar '-' value).getD 0 [] ++ [ '-' ]
         ++ List.replicate ((splitOnChar '-' value).getD 1 []).length '*'
         ++ [ '-' ] ++ (splitOnChar '-' value).getD 2 []
     else List.replicate value.length '*')
  else if info_type = str "이메일" then
    (if 0 < value.indexOf '@' ∧ value.indexOf '@' < value.length then
       value.take 1 ++ List.replicate (value.indexOf '@' - 1) '*' ++ value.drop (value.indexOf '@')
     else List.replicate value.length '*')
  else List.replicate value.length '*'

/-- Every branch of the mask keeps the length of the value. -/
theorem maskValue_length (t v : List Char) : (maskValue t v).length = v.length := by
  unfold maskValue
  split
  · simp only [List.length_append, List.length_take, List.length_replicate]
    omega
  · split
    · simp only [List.length_append, List.length_take, List.length_replicate]
      omega
    · split
      · split
        · next h3 =>
          obtain ⟨a, b, c, habc⟩ := List.length_eq_three.mp h3
          have hsum := splitOnChar_sum '-' v
          rw [habc] at hsum
          simp only [List.map_cons, List.map_nil, List.sum_cons, List.sum_nil,
            List.length_cons, List.length_nil] at hsum
          rw [habc]
          simp only [List.getD_cons_zero, List.getD_cons_succ, List.length_append,
            List.length_replicate, List.length_cons, List.length_nil]
          omega
        · simp
      · split
        · split
          · next h =>
            have hle : v.indexOf '@' ≤ v.length := List.indexOf_le_length
            simp only [List.length_append, List.length_take, List.length_replicate,
              List.length_drop]
            omega
          · simp
        · simp

theorem maskValue_nil (t : List Char) : maskValue t [] = [] :=
  List.length_eq_zero.mp (maskValue_length t [])

/-- One iteration of the masking loop of `mask_sensitive_info`, carrying
`(masked_text, offset)`.  The offset arithmetic is over `Int` as in the
source; since every mask preserves the length of the value it stays `0`
throughout, keeping all slice indices nonnegative. -/
def maskStep (st : List Char × Int) (item : Item) : List Char × Int :=
  let start := (item.start : Int) + st.2
  let stop := (item.stop : Int) + st.2
  if item.value.isEmpty then st
  else
    let masked := maskValue item.type item.value
    (st.1.take start.toNat ++ masked ++ st.1.drop stop.toNat,
     st.2 + ((masked.length : Int) - (item.value.length : Int)))

/-- Models `mask_sensitive_info`. -/
def mask_sensitive_info (text : List Char) (items : List Item) : List Char :=
  ((sortByKey Item.start items).foldl maskStep (text, 0)).1

theorem sortByKey_pair (key : α → Nat) (a b : α) (h : key a ≤ key b) :
    sortByKey key [a, b] = [a, b] := by
  simp [sortByKey, insertByKey, h]

/-- A mask step on a span sitting at its exact position replaces exactly
the value and keeps the running offset at zero. -/
theorem maskStep_at (A B : List Char) (i : Item)
    (hstart : i.start = A.length) (hstop : i.stop = A.length + i.value.length) :
    maskStep (A ++ i.value ++ B, 0) i = (A ++ maskValue i.type i.value ++ B, 0) := by
  by_cases hv : i.value.isEmpty
  · have hvnil : i.value = [] := by
      cases hvv : i.value with
      | nil => rfl
      | cons c cs => rw [hvv] at hv; simp at hv
    simp [maskStep, hv, hvnil, maskValue_nil]
  · unfold maskStep
    rw [if_neg (by simp [hv])]
    have h1 : ((i.start : Int) + (A ++ i.value ++ B, (0 : Int)).2).toNat = A.length := by
      rw [hstart]; omega
    have h2 : ((i.stop : Int) + (A ++ i.value ++ B, (0 : Int)).2).toNat
        = A.length + i.value.length := by
      rw [hstop]; omega
    rw [h1, h2]
    have htake : (A ++ i.value ++ B).take A.length = A := by
      rw [List.append_assoc]
      exact List.take_left A (i.value ++ B)
    have hdrop : (A ++ i.value ++ B).drop (A.length + i.value.length) = B := by
      exact List.drop_left' (by simp)
    rw [htake, hdrop]
    dsimp only
    rw [maskValue_length]
    simp

theorem maskValue_rrn (v : List Char) :
    maskValue (str "주민등록번호") v = v.take 4 ++ List.replicate (v.length - 4) '*' := by
  rw [maskValue, if_pos (by decide)]

/-- C10: masking a detected 주민등록번호 span with value 911012-1234567
keeps its first 4 characters and stars the remaining 10 (same total
length); the text before, between and after masked spans is preserved
verbatim, and a later span (here a second RRN span with arbitrary value)
is replaced at its own offsets, the running offset adjustment being the
length difference introduced by earlier masks. -/
theorem thm_C10_masking (pre mid post v2 : List Char) :
    mask_sensitive_info (pre ++ str "911012-1234567" ++ mid ++ v2 ++ post)
      [⟨str "주민등록번호", str "911012-1234567", pre.length, pre.length + 14,
        str "고유식별정보", none⟩,
       ⟨str "주민등록번호", v2, pre.length + 14 + mid.length,
        pre.length + 14 + mid.length + v2.length, str "고유식별정보", none⟩] =
      pre ++ (str "9110" ++ List.replicate 10 '*') ++ mid
        ++ (v2.take 4 ++ List.replicate (v2.length - 4) '*') ++ post
    ∧ (str "9110" ++ List.replicate 10 '*').length = (str "911012-1234567").length := by
  have h14 : (str "911012-1234567").length = 14 := by decide
  have hm1 : maskValue (str "주민등록번호") (str "911012-1234567")
      = str "9110" ++ List.replicate 10 '*' := by decide
  have h9110 : (str "9110").length = 4 := by decide
  constructor
  · unfold mask_sensitive_info
    rw [sortByKey_pair _ _ _ (by show pre.length ≤ pre.length + 14 + mid.length; omega)]
    simp only [List.foldl_cons, List.foldl_nil]
    have hstep1 := maskStep_at pre (mid ++ v2 ++ post)
      ⟨str "주민등록번호", str "911012-1234567", pre.length, pre.length + 14,
        str "고유식별정보", none⟩ rfl
      (by show pre.length + 14 = pre.length + (str "911012-1234567").length
          rw [h14])
    have htext : pre ++ str "911012-1234567" ++ mid ++ v2 ++ post
        = pre ++ str "911012-1234567" ++ (mid ++ v2 ++ post) := by
      simp [List.append_assoc]
    rw [htext, hstep1, hm1]
    have hstep2 := maskStep_at (pre ++ (str "9110" ++ List.replicate 10 '*') ++ mid) post
      ⟨str "주민등록번호", v2, pre.length + 14 + mid.length,
        pre.length + 14 + mid.length + v2.length, str "고유식별정보", none⟩
      (by show pre.length + 14 + mid.length
            = (pre ++ (str "9110" ++ List.replicate 10 '*') ++ mid).length
          simp only [List.length_append, List.length_replicate, h9110])
      (by show pre.length + 14 + mid.length + v2.length
            = (pre ++ (str "9110" ++ List.replicate 10 '*') ++ mid).length + v2.length
          simp only [List.length_append, List.length_replicate, h9110])
    have htext2 : pre ++ (str "9110" ++ List.replicate 10 '*') ++ (mid ++ v2 ++ post)
        = (pre ++ (str "9110" ++ List.replicate 10 '*') ++ mid) ++ v2 ++ post := by
      simp [List.append_assoc]
    rw [htext2, hstep2, maskValue_rrn]
  · decide

/-!  ## AccountValidator (src/validators/account_validator.py)  -/

/-- First-match lookup in an association list (models dict lookup /
ordered dict iteration with early return). -/
def lookupL (key : List Char) (l : List (List Char × β)) : Option β :=
  (l.find? (fun p => decide (p.1 = key))).map Prod.snd

def ACCOUNT_INVALID_PATTERNS : List (List Char) :=
  [str "0000000000", str "1111111111", str "2222222222", str "3333333333", str "4444444444",
   str "5555555555", str "6666666666", str "7777777777", str "8888888888", str "9999999999",
   str "1234567890", str "0123456789", str "9876543210", str "0987654321",
   str "00000000000", str "11111111111", str "22222222222", str "33333333333", str "44444444444",
   str "55555555555", str "66666666666", str "77777777777", str "88888888888", str "99999999999",
   str "12345678901", str "01234567890", str "98765432109", str "10987654321",
   str "000000000000", str "111111111111", str "222222222222", str "333333333333", str "444444444444",
   str "555555555555", str "666666666666", str "777777777777", str "888888888888", str "999999999999",
   str "123456789012", str "012345678901",
   str "0000000000000", str "1111111111111", str "2222222222222", str "3333333333333", str "4444444444444",
   str "5555555555555", str "6666666666666", str "7777777777777", str "8888888888888", str "9999999999999",
   str "00000000000000", str "11111111111111", str "22222222222222", str "33333333333333", str "44444444444444",
   str "55555555555555", str "66666666666666", str "77777777777777", str "88888888888888", str "99999999999999"]

/-- The running-counter scan of `AccountInvalidFilter._has_sequential_pattern`:
ascending/descending run counters with wraparound, reporting as soon as a
counter reaches `minLength`. -/
def accSeqGo (minLength : Nat) : Char → Nat → Nat → List Char → Bool
  | _, _, _, [] => false
  | prev, asc, desc, c :: cs =>
    let ascHit := decide (digitVal c = (digitVal prev + 1) % 10)
    let descHit := decide (digitVal c = (digitVal prev + 9) % 10)
    let asc' := if ascHit then asc + 1 else 1
    let desc' := if descHit then desc + 1 else 1
    if (ascHit && decide (minLength ≤ asc')) || (descHit && decide (minLength ≤ desc')) then true
    else accSeqGo minLength c asc' desc' cs

/-- Models `AccountInvalidFilter._has_sequential_pattern`. -/
def acc_has_sequential_pattern (minLength : Nat) (digits : List Char) : Bool :=
  if digits.length < minLength then false
  else
    match digits with
    | [] => false
    | c :: rest => accSeqGo minLength c 1 1 rest

/-- Models `AccountInvalidFilter._has_two_digit_repeat`. -/
def acc_has_two_digit_repeat (minLength : Nat) (digits : List Char) : Bool :=
  if digits.length < minLength then false
  else
    match digits with
    | a :: b :: _ =>
      if a = b then false
      else decide (digits = (List.flatten (List.replicate (digits.length / 2 + 1) [a, b])).take digits.length)
    | _ => false

/-- Models `AccountInvalidFilter.check` (the boolean component). -/
def account_filter_check (account_number : List Char) : Bool :=
  if account_number.isEmpty then true
  else
    let cleaned := account_number.filter (fun c => !(c = '-' || c = ' '))
    let digits_only := keepDigits cleaned
    if digits_only.length < 10 || 16 < digits_only.length then true
    else if ACCOUNT_INVALID_PATTERNS.any (fun p => decide (digits_only = p)) then true
    else if allEqHead digits_only then true
    else if hasSameDigitRun 8 digits_only then true
    else if acc_has_sequential_pattern 8 digits_only then true
    else if acc_has_two_digit_repeat 8 digits_only then true
    else false

/-- Models `SubjectCodeExtractor.EXTRACTION_RULES`: per bank, a list of
(total digit length, start index, code length). -/
def EXTRACTION_RULES : List (List Char × List (Nat × Nat × Nat)) :=
  [(str "한국산업은행", [(11, 3, 2), (14, 0, 3)]),
   (str "IBK기업은행", [(12, 3, 2), (14, 9, 2)]),
   (str "KB국민은행", [(12, 3, 2), (14, 4, 2)]),
   (str "KEB하나은행", [(11, 3, 2), (12, 0, 3), (14, 12, 2)]),
   (str "수협중앙회", [(11, 3, 2), (12, 0, 3)]),
   (str "NH농협은행", [(11, 3, 2), (12, 4, 2), (13, 0, 3)]),
   (str "단위농협", [(13, 0, 3), (14, 6, 2)]),
   (str "우리은행", [(11, 3, 2), (12, 3, 2), (13, 1, 3), (14, 9, 2)]),
   (str "SC제일은행", [(11, 3, 2), (14, 3, 2)]),
   (str "신한은행", [(11, 3, 2), (12, 0, 3), (14, 0, 3)]),
   (str "한국씨티은행", [(11, 3, 2), (14, 8, 2)]),
   (str "대구은행", [(11, 3, 2), (12, 0, 3)]),
   (str "새마을금고", [(13, 1, 3), (14, 4, 3)]),
   (str "케이뱅크", [(12, 0, 3)]),
   (str "카카오뱅크", [(13, 1, 3)]),
   (str "토스뱅크", [(12, 0, 3)])]

/-- Models `SubjectCodeExtractor.extract`. -/
def subject_code_extract (account_number bank_name : List Char) : Option (List Char) :=
  match lookupL bank_name EXTRACTION_RULES with
  | none => none
  | some rules =>
    let digits := removeDashSpace account_number
    match rules.find? (fun r => decide (r.1 = digits.length)) with
    | none => none
    | some r =>
      if digits.length < r.2.1 + r.2.2 then none
      else some ((digits.drop r.2.1).take r.2.2)

/-- A bank entry of the format registry: valid lengths, subject-code
table (category to codes), virtual-account codes (type to codes) and
extra codes. -/
structure BankFormat where
  lengths : List Nat
  subject_codes : List (List Char × List (List Char))
  virtual_codes : List (List Char × List (List Char))
  extra_codes : List (List Char × List (List Char))
deriving DecidableEq

/-- Modelled from the spec: the module `validators/bank_formats.py`
(`BANK_ACCOUNT_FORMATS`, `get_valid_lengths_by_bank`) is not under src/.
The 카카오뱅크 entry is reconstructed from the spec (§3 BankFormatEntry,
§4.3: per-bank valid lengths, subject-code tables, virtual-account code
sets), from the format comments in `account_validator.py` (13 digits,
business digit T followed by subject code YYY, 333 = 입출금, 388 =
정기예금) and from the expectations in `test_account_validator.py`
(777 = 가상계좌 mini). -/
def BANK_ACCOUNT_FORMATS : List (List Char × BankFormat) :=
  [(str "카카오뱅크",
    { lengths := [13],
      subject_codes := [(str "입출금", [str "333"]), (str "정기예금", [str "388"])],
      virtual_codes := [(str "mini", [str "777"])],
      extra_codes := [] })]

/-- Modelled from the spec: `get_valid_lengths_by_bank` of the absent
`bank_formats` module (an unknown bank yields no length constraint). -/
def get_valid_lengths_by_bank (bank : List Char) : List Nat :=
  match lookupL bank BANK_ACCOUNT_FORMATS with
  | none => []
  | some f => f.lengths

/-- Models `SubjectCodeValidator._match_code` over the modelled registry
(codes are strings; a code containing `~` denotes a numeric range, whose
failed integer parses are swallowed as in the Python `except ValueError`). -/
def subject_match_code (code : List Char) (valid_codes : List (List Char)) : Bool :=
  valid_codes.any (fun vc =>
    if containsSub (str "~") vc then
      match splitOnChar '~' vc with
      | [s, e] =>
        if isdigitStr s && isdigitStr e && isdigitStr code then
          decide (digitsToNat s ≤ digitsToNat code) && decide (digitsToNat code ≤ digitsToNat e)
        else false
      | _ => false
    else decide (code = vc))

/-- Models `SubjectCodeValidator.validate`. -/
def subject_code_validate (subject_code bank_name : List Char) : Bool × Option (List Char) :=
  match lookupL bank_name BANK_ACCOUNT_FORMATS with
  | none => (true, none)
  | some bd =>
    if subject_code.isEmpty then (true, none)
    else
      match bd.virtual_codes.find? (fun p => subject_match_code subject_code p.2) with
      | some p => (true, some (str "가상계좌(" ++ p.1 ++ str ")"))
      | none =>
        match bd.subject_codes.find? (fun p => subject_match_code subject_code p.2) with
        | some p => (true, some p.1)
        | none =>
          match bd.extra_codes.find? (fun p => subject_match_code subject_code p.2) with
          | some p => (true, some p.1)
          | none => (false, none)

/-- `AccountValidator.BANK_KEYWORDS` in source (dict insertion) order. -/
def BANK_KEYWORDS : List (List Char × List Char) :=
  [(str "산업은행", str "한국산업은행"), (str "산은", str "한국산업은행"), (str "KDB", str "한국산업은행"),
   (str "기업은행", str "IBK기업은행"), (str "IBK", str "IBK기업은행"), (str "중소기업은행", str "IBK기업은행"),
   (str "국민은행", str "KB국민은행"), (str "KB", str "KB국민은행"), (str "주택은행", str "KB국민은행"),
   (str "하나은행", str "KEB하나은행"), (str "KEB", str "KEB하나은행"), (str "외환은행", str "KEB하나은행"),
   (str "신한은행", str "신한은행"), (str "신한", str "신한은행"), (str "조흥은행", str "신한은행"),
   (str "우리은행", str "우리은행"), (str "우리", str "우리은행"), (str "상업은행", str "우리은행"),
   (str "한일은행", str "우리은행"), (str "평화은행", str "우리은행"),
   (str "SC제일", str "SC제일은행"), (str "제일은행", str "SC제일은행"),
   (str "씨티은행", str "한국씨티은행"), (str "씨티", str "한국씨티은행"), (str "한미은행", str "한국씨티은행"),
   (str "대구은행", str "대구은행"), (str "DGB", str "대구은행"),
   (str "부산은행", str "BNK부산은행"), (str "BNK", str "BNK부산은행"),
   (str "농협", str "NH농협은행"), (str "NH", str "NH농협은행"),
   (str "단위농협", str "단위농협"), (str "지역농협", str "단위농협"),
   (str "수협", str "수협중앙회"),
   (str "새마을금고", str "새마을금고"), (str "새마을", str "새마을금고"),
   (str "카카오뱅크", str "카카오뱅크"), (str "카카오", str "카카오뱅크"),
   (str "케이뱅크", str "케이뱅크"),
   (str "토스뱅크", str "토스뱅크"), (str "토스", str "토스뱅크")]

def ACCOUNT_CONTEXT_KEYWORDS : List (List Char) :=
  [str "계좌", str "계좌번호", str "account", str "입금", str "송금", str "이체", str "출금",
   str "은행", str "bank", str "예금", str "적금", str "급여", str "월급", str "정산",
   str "입금계좌", str "출금계좌", str "환불계좌", str "급여계좌", str "결제계좌",
   str "보통예금", str "저축예금", str "자유저축", str "정기예금", str "정기적금"]

/-- Models `AccountValidator.detect_bank_from_context` (first matching
keyword wins, in dict order). -/
def detect_bank_from_context (context : List Char) : List Char :=
  let context_lower := lowerL context
  match BANK_KEYWORDS.find? (fun p =>
      containsSub (lowerL p.1) context_lower || containsSub p.1 context) with
  | some p => p.2
  | none => []

/-- Models `AccountValidator.has_account_context`. -/
def has_account_context (context : List Char) : Bool :=
  let context_lower := lowerL context
  ACCOUNT_CONTEXT_KEYWORDS.any (fun kw =>
    containsSub (lowerL kw) context_lower || containsSub kw context)
  || BANK_KEYWORDS.any (fun p =>
    containsSub (lowerL p.1) context_lower || containsSub p.1 context)

/-- Models `AccountValidator.validate`. -/
def account_validate (value : List Char) : Bool :=
  let digits := removeDashSpace value
  if digits.length < 10 || 16 < digits.length then false
  else isdigitStr digits

/-- Models `AccountValidator.validate_full`. -/
def account_validate_full (value context : List Char) : Bool × List Char × List Char :=
  if !account_validate value then (false, [], [])
  else
    let digits := removeDashSpace value
    if account_filter_check digits then (false, [], [])
    else
      let detected_bank := detect_bank_from_context context
      let has_ctx := has_account_context context
      if !detected_bank.isEmpty then
        let valid_lengths := get_valid_lengths_by_bank detected_bank
        let length_match := if valid_lengths.isEmpty then true
                            else decide (digits.length ∈ valid_lengths)
        if !length_match then (true, str "계좌번호", str "medium")
        else
          match subject_code_extract digits detected_bank with
          | some subject_code =>
            let cv := subject_code_validate subject_code detected_bank
            if cv.1 && cv.2.isSome then (true, str "계좌번호", str "high")
            else if cv.1 then (true, str "계좌번호", str "high")
            else (true, str "계좌번호", str "medium")
          | none => (true, str "계좌번호", str "high")
      else if has_ctx then (true, str "계좌번호", str "medium")
      else (true, str "계좌번호(의심)", str "low")

/-- C8 counterexample: for the account number 3330100123456 the extractor
takes digits at indices 1..3 and yields "330", not "333"; under the
modelled 카카오뱅크 code table "330" matches no category and
`validate_full` reports confidence "medium", not "high".  (The repository
test suite shares the claim's expectation and disagrees with the code.) -/
theorem cex_C8_kakao_scenario :
    detect_bank_from_context (str "카카오뱅크 계좌입니다") = str "카카오뱅크"
    ∧ subject_code_extract (str "3330100123456") (str "카카오뱅크") = some (str "330")
    ∧ account_validate_full (str "3330100123456") (str "카카오뱅크 계좌입니다")
        = (true, str "계좌번호", str "medium") := by
  decide

/-- C8 (amended): for a 카카오뱅크 account number whose digits 2..4 carry
the subject code — for example 3333010012345 — with context
"카카오뱅크 계좌입니다", the bank is detected from the context, the
subject code "333" is extracted, it matches the 입출금 category of the
bank's code table, and `validate_full` returns confidence "high". -/
theorem thm_C8_kakao_scenario :
    detect_bank_from_context (str "카카오뱅크 계좌입니다") = str "카카오뱅크"
    ∧ subject_code_extract (str "3333010012345") (str "카카오뱅크") = some (str "333")
    ∧ subject_code_validate (str "333") (str "카카오뱅크") = (true, some (str "입출금"))
    ∧ account_validate_full (str "3333010012345") (str "카카오뱅크 계좌입니다")
        = (true, str "계좌번호", str "high") := by
  decide

/-!  ## ForeignerRRNValidator (src/validators/foreigner_validator.py)  -/

/-- Models `ForeignerRRNValidator.validate` (gender/nationality digit
5..8; same length, digit and date checks as the RRN validator). -/
def foreigner_validate (value : List Char) : Bool :=
  let d := removeDashSpace value
  if d.length ≠ 13 then false
  else if !isdigitStr d then false
  else if !rrn_is_valid_date d then false
  else decide (digitVal (d.getD 6 ' ') ∈ [5, 6, 7, 8])

/-- Models `ForeignerRRNValidator.get_birth_date` up to the `date`
constructor (gender 5/6 maps to the 1900s, 7/8 to the 2000s, anything
else defaults to the 1900s). -/
def foreigner_birth_triple (value : List Char) : Nat × Nat × Nat :=
  let d := removeDashSpace value
  let year := digitsToNat (d.take 2)
  let month := digitsToNat ((d.drop 2).take 2)
  let day := digitsToNat ((d.drop 4).take 2)
  let gender := digitVal (d.getD 6 ' ')
  let y := if gender ∈ [5, 6] then 1900 + year
           else if gender ∈ [7, 8] then 2000 + year
           else 1900 + year
  (y, month, day)

/-- Models `ForeignerRRNValidator.is_checksum_applicable` (try/except as
for the RRN validator). -/
def foreigner_checksum_applicable (value : List Char) : Bool :=
  let d := removeDashSpace value
  if !(isdigitStr (d.take 2) && isdigitStr ((d.drop 2).take 2) &&
       isdigitStr ((d.drop 4).take 2) && decide (7 ≤ d.length) && (d.getD 6 ' ').isDigit) then false
  else if !dateExistsB (foreigner_birth_triple value) then false
  else dateLtB (foreigner_birth_triple value) CHECKSUM_CUTOFF

/-- Models `ForeignerRRNValidator.verify_checksum` (identical weights and
formula as the RRN checksum). -/
def foreigner_verify_checksum (value : List Char) : Bool :=
  let d := removeDashSpace value
  if d.length ≠ 13 || !isdigitStr d then false
  else
    let total := (List.zipWith (fun c w => digitVal c * w) (d.take 12) RRN_CHECKSUM_WEIGHTS).foldl (· + ·) 0
    decide ((11 - total % 11) % 10 = digitVal (d.getD 12 ' '))

/-- Models `ForeignerRRNValidator.validate_full`. -/
def foreigner_validate_full (value : List Char) : Bool × List Char :=
  if is_test_rrn value then (false, [])
  else if !foreigner_validate value then (false, [])
  else if foreigner_checksum_applicable value then
    (if foreigner_verify_checksum value then (true, str "외국인등록번호") else (false, []))
  else (true, str "외국인등록번호(의심)")

/-!  ## PassportValidator (src/validators/passport_validator.py)  -/

def PASSPORT_VALID_TYPE_CODES : List Char := ['M', 'S', 'D', 'R', 'G', 'O', 'P']

def PASSPORT_VALID_SECOND_CODES : List Char := ['M', 'S', 'E', 'T', 'Z']

def PASSPORT_INVALID_LEGACY_PATTERNS : List (List Char) :=
  [str "11111111", str "22222222", str "33333333", str "44444444",
   str "55555555", str "66666666", str "77777777", str "88888888",
   str "99999999", str "00000000",
   str "12345678", str "23456789", str "34567890",
   str "87654321", str "98765432", str "09876543"]

def PASSPORT_INVALID_7DIGIT_PATTERNS : List (List Char) :=
  [str "1111111", str "2222222", str "3333333", str "4444444",
   str "5555555", str "6666666", str "7777777", str "8888888",
   str "9999999", str "0000000",
   str "1234567", str "2345678", str "3456789",
   str "7654321", str "8765432", str "9876543"]

def isUpperAlpha (c : Char) : Bool := decide ('A' ≤ c) && decide (c ≤ 'Z')

/-- Pattern `^[A-Z][0-9]{8}$`. -/
def passportMatchLegacy (v : List Char) : Bool :=
  decide (v.length = 9) && isUpperAlpha (v.getD 0 ' ') && (v.drop 1).all Char.isDigit

/-- Pattern `^[A-Z][0-9]{3}[A-Z][0-9]{4}$`. -/
def passportMatchNextGen (v : List Char) : Bool :=
  decide (v.length = 9) && isUpperAlpha (v.getD 0 ' ')
    && ((v.drop 1).take 3).all Char.isDigit
    && isUpperAlpha (v.getD 4 ' ') && (v.drop 5).all Char.isDigit

/-- Pattern `^[A-Z]{2}[0-9]{7}$`. -/
def passportMatchOld (v : List Char) : Bool :=
  decide (v.length = 9) && (v.take 2).all isUpperAlpha && (v.drop 2).all Char.isDigit

/-- Models `PassportValidator.validate`. -/
def passport_validate (value : List Char) : Bool :=
  let v := upperL (stripL value)
  if v.length ≠ 9 then false
  else if passportMatchLegacy v then decide (v.getD 0 ' ' ∈ PASSPORT_VALID_TYPE_CODES)
  else if passportMatchNextGen v then
    decide (v.getD 0 ' ' ∈ PASSPORT_VALID_TYPE_CODES) && !decide (v.getD 4 ' ' ∈ ['I', 'O'])
  else if passportMatchOld v then
    (if v.getD 0 ' ' = 'P' then decide (v.getD 1 ' ' ∈ PASSPORT_VALID_SECOND_CODES)
     else decide (v.getD 0 ' ' ∈ PASSPORT_VALID_TYPE_CODES))
  else false

/-- Models `PassportValidator._detect_format`. -/
def passport_detect_format (value : List Char) : List Char :=
  let v := upperL (stripL value)
  if passportMatchNextGen v then str "next_gen"
  else if passportMatchLegacy v then str "legacy"
  else if passportMatchOld v then str "old"
  else str "unknown"

/-- Models `PassportInvalidFilter.check` (boolean component). -/
def passport_filter_check (passport_number fmt : List Char) : Bool :=
  if passport_number.isEmpty then true
  else
    let cleaned := (upperL passport_number).filter (fun c => !(c = '-' || c = ' '))
    let digits := keepDigits cleaned
    if fmt = str "legacy" then
      (if digits.length = 8 then
         (PASSPORT_INVALID_LEGACY_PATTERNS.any (fun p => decide (digits = p))
           || hasSameDigitRun 6 digits)
       else false)
    else if fmt = str "next_gen" || fmt = str "old" then
      (if digits.length = 7 then
         (PASSPORT_INVALID_7DIGIT_PATTERNS.any (fun p => decide (digits = p))
           || hasSameDigitRun 5 digits)
       else false)
    else false

/-- Models `PassportValidator.validate_full` (the two arms of the
next-generation check both yield the definite label, as in the source). -/
def passport_validate_full (value : List Char) : Bool × List Char :=
  let v := upperL (stripL value)
  if !passport_validate v then (false, [])
  else
    let fmt := passport_detect_format v
    if passport_filter_check v fmt then (false, [])
    else if decide (v.getD 0 ' ' ∈ PASSPORT_VALID_TYPE_CODES) then
      (if fmt = str "next_gen" then (true, str "여권번호") else (true, str "여권번호"))
    else (true, str "여권번호(의심)")

/-!  ## Regex scanner (`LocalLLMAnalyzer.detect_sensitive_info_regex`)  -/

/-- `LocalLLMAnalyzer.PRIORITY_ORDER` (src/core/analyzer.py). -/
def PRIORITY_ORDER : List (List Char) :=
  [str "주민등록번호", str "외국인등록번호", str "여권번호", str "운전면허번호",
   str "카드번호", str "휴대전화", str "전화번호", str "이메일",
   str "계좌번호", str "주소", str "IP주소"]

/-- Models `LocalLLMAnalyzer._is_overlapping`. -/
def is_overlapping (s1 e1 s2 e2 : Nat) : Bool :=
  !(decide (e1 ≤ s2) || decide (e2 ≤ s1))

/-- Modelled from the spec: `INFO_LEGAL_CATEGORY` lives in the absent
`utils/constants.py`; reconstructed from the legal classification listed
in the analyzer header (고유식별정보: 주민등록번호, 여권번호,
운전면허번호, 외국인등록번호; 금융정보: 계좌번호, 카드번호) with the
`.get` default 일반개인정보 for the remaining regex types. -/
def info_legal_category (info_type : List Char) : List Char :=
  if info_type ∈ [str "주민등록번호", str "여권번호", str "운전면허번호", str "외국인등록번호"] then
    str "고유식별정보"
  else if info_type ∈ [str "계좌번호", str "카드번호"] then str "금융정보"
  else str "일반개인정보"

/-- Modelled from the spec: `EXPOSURE_PROHIBITED_INFO` (absent
`utils/constants.py`); the financial identifiers whose raw display is
legally forbidden, per the analyzer header (계좌번호, 카드번호). -/
def exposure_prohibited_info (info_type : List Char) : Bool :=
  decide (info_type ∈ [str "계좌번호", str "카드번호"])

/-- Models `LocalLLMAnalyzer._validate_with_context`.  The 주소 keyword
table (`CONTEXT_KEYWORDS`, absent `utils/constants.py`) is the `addrKw`
parameter. -/
def validate_with_context (addrKw : List (List Char))
    (info_type value context : List Char) : Bool × List Char :=
  if info_type = str "주민등록번호" then
    (let r := rrn_validate_full value
     if r.1 then
       (if containsSub (str "의심") r.2 then (true, str "medium") else (true, str "high"))
     else (false, str "low"))
  else if info_type = str "외국인등록번호" then
    (let r := foreigner_validate_full value
     if r.1 then
       (if containsSub (str "의심") r.2 then (true, str "medium") else (true, str "high"))
     else (false, str "low"))
  else if info_type = str "여권번호" then
    (let r := passport_validate_full value
     if r.1 then
       (if containsSub (str "의심") r.2 then (true, str "medium") else (true, str "high"))
     else (false, str "low"))
  else if info_type = str "운전면허번호" then
    (let r := dl_validate_full value
     if r.1 then
       (if containsSub (str "의심") r.2 then (true, str "medium") else (true, str "high"))
     else (false, str "low"))
  else if info_type = str "카드번호" then
    (let r := card_validate_full value
     if r.1 then
       (if containsSub (str "의심") r.2 then (true, str "medium") else (true, str "high"))
     else (false, str "low"))
  else if info_type = str "이메일" then (true, str "high")
  else if info_type = str "계좌번호" then
    (let r := account_validate_full value context
     if r.1 then (true, r.2.2) else (false, str "low"))
  else if info_type = str "주소" then
    (if addrKw.any (fun kw => containsSub (lowerL kw) (lowerL context)) then (true, str "high")
     else (false, str "medium"))
  else if info_type = str "전화번호" || info_type = str "휴대전화" then (false, str "high")
  else if info_type = str "IP주소" then (true, str "medium")
  else (false, str "medium")

/-- A span produced by `detect_sensitive_info_regex` (the dict appended
at src/core/analyzer.py lines 167-178; `stop` models the `end` key). -/
structure Detected where
  type : List Char
  value : List Char
  start : Nat
  stop : Nat
  context : List Char
  method : List Char
  confidence : List Char
  legal_category : List Char
  exposure_prohibited : Bool
  has_context : Bool
deriving DecidableEq

/-- One iteration of the match loop of `detect_sensitive_info_regex` for
one candidate span of type `info_type`: the value is the stripped text
slice, the span is rejected on any intersection with a previously
accepted span, the ±100-character context window is extracted, account
spans without contextual signal are discarded, and medium/low confidence
rewrites the display type to the suspect form.  The Python code appends
to `detected` and `detected_ranges` in lockstep, so the range list is
carried as the `(start, stop)` fields of the accumulator. -/
def scanOne (text : List Char) (addrKw : List (List Char)) (info_type : List Char)
    (acc : List Detected) (m : Nat × Nat) : List Detected :=
  let value := stripL ((text.drop m.1).take (m.2 - m.1))
  if acc.any (fun d => is_overlapping m.1 m.2 d.start d.stop) then acc
  else
    let context_start := m.1 - 100
    let context_stop := min (m.2 + 100) text.length
    let context := ((text.drop context_start).take (context_stop - context_start)).map
      (fun c => if c = '\n' then ' ' else c)
    let vc := validate_with_context addrKw info_type value context
    if info_type = str "계좌번호" && !vc.1 then acc
    else
      let display_type :=
        if vc.2 = str "medium"
            && decide (info_type ∈ [str "주민등록번호", str "외국인등록번호", str "카드번호", str "계좌번호"]) then
          info_type ++ str "(의심)"
        else if vc.2 = str "low" && info_type = str "계좌번호" then str "계좌번호(의심)"
        else info_type
      acc ++ [{ type := display_type, value := value, start := m.1, stop := m.2,
                context := context, method := str "regex", confidence := vc.2,
                legal_category := info_legal_category info_type,
                exposure_prohibited := exposure_prohibited_info info_type,
                has_context := vc.1 }]

/-- The inner `re.finditer` loop of `detect_sensitive_info_regex` for one
entry of the priority order. -/
def scanStage (text : List Char) (addrKw : List (List Char))
    (cands : List Char → List (Nat × Nat)) (acc : List Detected) (t : List Char) : List Detected :=
  (cands t).foldl (scanOne text addrKw t) acc

/-- Modelled from the spec: the regex table `SENSITIVE_PATTERNS` lives in
the absent `utils/constants.py`, so the spans that `re.finditer` yields
per type are supplied as the `cands` input (a type with no pattern has no
candidates); value and context are recovered from `text` by offset, and
the resulting spans are processed in `PRIORITY_ORDER` and finally sorted
by start offset, exactly as in `detect_sensitive_info_regex`. -/
def detect_sensitive_info_regex (text : List Char) (addrKw : List (List Char))
    (cands : List Char → List (Nat × Nat)) : List Detected :=
  sortByKey Detected.start (PRIORITY_ORDER.foldl (scanStage text addrKw cands) [])

theorem is_overlapping_symm (s1 e1 s2 e2 : Nat) :
    is_overlapping s1 e1 s2 e2 = is_overlapping s2 e2 s1 e1 := by
  simp [is_overlapping, Bool.or_comm]

/-- Case analysis for one scan step: the accumulator is unchanged, or one
record is appended that overlaps no accepted span and whose display type
is the stage type, its suspect form, or the account suspect label. -/
theorem scanOne_cases (text : List Char) (addrKw : List (List Char)) (t : List Char)
    (acc : List Detected) (m : Nat × Nat) :
    scanOne text addrKw t acc m = acc
    ∨ ∃ d, scanOne text addrKw t acc m = acc ++ [d]
        ∧ (∀ a ∈ acc, is_overlapping d.start d.stop a.start a.stop = false)
        ∧ (d.type = t ∨ d.type = t ++ str "(의심)" ∨ d.type = str "계좌번호(의심)") := by
  simp only [scanOne]
  by_cases h1 : acc.any (fun d => is_overlapping m.1 m.2 d.start d.stop) = true
  · rw [if_pos h1]
    exact Or.inl rfl
  · rw [if_neg h1]
    have hov : ∀ a ∈ acc, is_overlapping m.1 m.2 a.start a.stop = false := by
      intro a ha
      cases hx : is_overlapping m.1 m.2 a.start a.stop with
      | false => rfl
      | true => exact absurd (List.any_eq_true.mpr ⟨a, ha, hx⟩) h1
    by_cases h2 : (t = str "계좌번호"
        && !(validate_with_context addrKw t
              (stripL ((text.drop m.1).take (m.2 - m.1)))
              (((text.drop (m.1 - 100)).take (min (m.2 + 100) text.length - (m.1 - 100))).map
                (fun c => if c = '\n' then ' ' else c))).1) = true
    · rw [if_pos h2]
      exact Or.inl rfl
    · rw [if_neg h2]
      refine Or.inr ⟨_, rfl, hov, ?_⟩
      by_cases h3 : ((validate_with_context addrKw t
              (stripL ((text.drop m.1).take (m.2 - m.1)))
              (((text.drop (m.1 - 100)).take (min (m.2 + 100) text.length - (m.1 - 100))).map
                (fun c => if c = '\n' then ' ' else c))).2 = str "medium"
            && decide (t ∈ [str "주민등록번호", str "외국인등록번호", str "카드번호", str "계좌번호"])) = true
      · right; left
        show (if _ then t ++ str "(의심)" else _) = t ++ str "(의심)"
        rw [if_pos h3]
      · by_cases h4 : ((validate_with_context addrKw t
              (stripL ((text.drop m.1).take (m.2 - m.1)))
              (((text.drop (m.1 - 100)).take (min (m.2 + 100) text.length - (m.1 - 100))).map
                (fun c => if c = '\n' then ' ' else c))).2 = str "low"
            && t = str "계좌번호") = true
        · right; right
          show (if _ then _ else if _ then str "계좌번호(의심)" else _) = str "계좌번호(의심)"
          rw [if_neg h3, if_pos h4]
        · left
          show (if _ then _ else if _ then _ else t) = t
          rw [if_neg h3, if_neg h4]

theorem scanOne_grows (text : List Char) (addrKw : List (List Char)) (t : List Char)
    (acc : List Detected) (m : Nat × Nat) : acc <+: scanOne text addrKw t acc m := by
  rcases scanOne_cases text addrKw t acc m with he | ⟨d, he, _, _⟩
  · rw [he]
  · rw [he]; exact List.prefix_append acc [d]

theorem foldl_scanOne_grows (text : List Char) (addrKw : List (List Char)) (t : List Char) :
    ∀ (ms : List (Nat × Nat)) (acc : List Detected),
      acc <+: ms.foldl (scanOne text addrKw t) acc := by
  intro ms
  induction ms with
  | nil => intro acc; exact List.prefix_refl acc
  | cons m ms' ih =>
    intro acc
    simp only [List.foldl_cons]
    exact (scanOne_grows text addrKw t acc m).trans (ih _)

theorem mem_foldl_scanOne (text : List Char) (addrKw : List (List Char)) (t : List Char) :
    ∀ (ms : List (Nat × Nat)) (acc : List Detected) (d : Detected),
      d ∈ ms.foldl (scanOne text addrKw t) acc →
      d ∈ acc ∨ (d.type = t ∨ d.type = t ++ str "(의심)" ∨ d.type = str "계좌번호(의심)") := by
  intro ms
  induction ms with
  | nil => intro acc d hd; exact Or.inl hd
  | cons m ms' ih =>
    intro acc d hd
    simp only [List.foldl_cons] at hd
    rcases ih _ d hd with hin | hty
    · rcases scanOne_cases text addrKw t acc m with he | ⟨d', he, _, hty'⟩
      · rw [he] at hin; exact Or.inl hin
      · rw [he] at hin
        rcases List.mem_append.mp hin with hin | hin
        · exact Or.inl hin
        · rw [List.mem_singleton] at hin; subst hin; exact Or.inr hty'
    · exact Or.inr hty

/-- No two distinct spans of the list intersect. -/
def PairwiseNoOverlap (l : List Detected) : Prop :=
  ∀ a ∈ l, ∀ b ∈ l, a ≠ b → is_overlapping a.start a.stop b.start b.stop = false

theorem scanOne_pairwise (text : List Char) (addrKw : List (List Char)) (t : List Char)
    (acc : List Detected) (m : Nat × Nat) (h : PairwiseNoOverlap acc) :
    PairwiseNoOverlap (scanOne text addrKw t acc m) := by
  rcases scanOne_cases text addrKw t acc m with he | ⟨d, he, hov, _⟩
  · rw [he]; exact h
  · rw [he]
    intro a ha b hb hne
    rcases List.mem_append.mp ha with ha | ha <;> rcases List.mem_append.mp hb with hb | hb
    · exact h a ha b hb hne
    · rw [List.mem_singleton] at hb
      rw [hb, is_overlapping_symm]; exact hov a ha
    · rw [List.mem_singleton] at ha
      rw [ha]; exact hov b hb
    · rw [List.mem_singleton] at ha hb
      exact absurd (ha.trans hb.symm) hne

theorem foldl_scanOne_pairwise (text : List Char) (addrKw : List (List Char)) (t : List Char) :
    ∀ (ms : List (Nat × Nat)) (acc : List Detected), PairwiseNoOverlap acc →
      PairwiseNoOverlap (ms.foldl (scanOne text addrKw t) acc) := by
  intro ms
  induction ms with
  | nil => intro acc h; exact h
  | cons m ms' ih =>
    intro acc h
    simp only [List.foldl_cons]
    exact ih _ (scanOne_pairwise text addrKw t acc m h)

theorem stages_pairwise (text : List Char) (addrKw : List (List Char))
    (cands : List Char → List (Nat × Nat)) :
    ∀ (ts : List (List Char)) (acc : List Detected), PairwiseNoOverlap acc →
      PairwiseNoOverlap (ts.foldl (scanStage text addrKw cands) acc) := by
  intro ts
  induction ts with
  | nil => intro acc h; exact h
  | cons t ts' ih =>
    intro acc h
    simp only [List.foldl_cons]
    exact ih _ (foldl_scanOne_pairwise text addrKw t (cands t) acc h)

/-- Once the 주민등록번호 stage has run, later stages can neither remove
nor add RRN-labelled spans. -/
theorem rrn_mem_stages (text : List Char) (addrKw : List (List Char))
    (cands : List Char → List (Nat × Nat)) :
    ∀ (ts : List (List Char)) (acc : List Detected),
      (∀ t ∈ ts, ¬(t = str "주민등록번호" ∨ t = str "주민등록번호(의심)")
        ∧ ¬(t ++ str "(의심)" = str "주민등록번호"
            ∨ t ++ str "(의심)" = str "주민등록번호(의심)")) →
      ∀ d : Detected, (d.type = str "주민등록번호" ∨ d.type = str "주민등록번호(의심)") →
      (d ∈ ts.foldl (scanStage text addrKw cands) acc ↔ d ∈ acc) := by
  intro ts
  induction ts with
  | nil => intro acc _ d _; simp
  | cons t ts' ih =>
    intro acc hts d hd
    simp only [List.foldl_cons]
    rw [ih (scanStage text addrKw cands acc t)
      (fun u hu => hts u (List.mem_cons_of_mem t hu)) d hd]
    obtain ⟨hn1, hn2⟩ := hts t (List.mem_cons_self t ts')
    have hacct : ¬(str "계좌번호(의심)" = str "주민등록번호"
        ∨ str "계좌번호(의심)" = str "주민등록번호(의심)") := by decide
    constructor
    · intro hmem
      rcases mem_foldl_scanOne text addrKw t (cands t) acc d hmem with hin | hty
      · exact hin
      · exfalso
        rcases hty with hty | hty | hty
        · exact hn1 (hty ▸ hd)
        · exact hn2 (hty ▸ hd)
        · exact hacct (hty ▸ hd)
    · intro hmem
      exact (foldl_scanOne_grows text addrKw t (cands t) acc).subset hmem

def PRIORITY_REST : List (List Char) :=
  [str "외국인등록번호", str "여권번호", str "운전면허번호",
   str "카드번호", str "휴대전화", str "전화번호", str "이메일",
   str "계좌번호", str "주소", str "IP주소"]

theorem priority_order_cons :
    PRIORITY_ORDER = str "주민등록번호" :: PRIORITY_REST := rfl

/-- C5: (a) no two distinct spans retained by the regex scanner
intersect — in particular a 계좌번호 span overlapping an accepted
주민등록번호 span is rejected, whatever its position; and (b) the
주민등록번호 detections depend only on the 주민등록번호 candidates:
changing the candidates of every lower-priority type (e.g. dropping or
adding the 계좌번호 matches) leaves the set of RRN-labelled spans in the
output unchanged, so it is always the higher-priority span that
survives. -/
theorem thm_C5_priority_exclusion (text : List Char) (addrKw : List (List Char))
    (cands cands' : List Char → List (Nat × Nat))
    (hc : cands (str "주민등록번호") = cands' (str "주민등록번호")) :
    (∀ a ∈ detect_sensitive_info_regex text addrKw cands,
       ∀ b ∈ detect_sensitive_info_regex text addrKw cands,
         a ≠ b → is_overlapping a.start a.stop b.start b.stop = false)
    ∧ (∀ d : Detected,
        (d.type = str "주민등록번호" ∨ d.type = str "주민등록번호(의심)") →
        (d ∈ detect_sensitive_info_regex text addrKw cands
          ↔ d ∈ detect_sensitive_info_regex text addrKw cands')) := by
  constructor
  · intro a ha b hb hne
    rw [detect_sensitive_info_regex, mem_sortByKey] at ha hb
    exact stages_pairwise text addrKw cands PRIORITY_ORDER []
      (fun x hx => absurd hx (List.not_mem_nil x)) a ha b hb hne
  · intro d hd
    rw [detect_sensitive_info_regex, detect_sensitive_info_regex,
      mem_sortByKey, mem_sortByKey, priority_order_cons]
    simp only [List.foldl_cons]
    have hrest : ∀ t ∈ PRIORITY_REST,
        ¬(t = str "주민등록번호" ∨ t = str "주민등록번호(의심)")
        ∧ ¬(t ++ str "(의심)" = str "주민등록번호"
            ∨ t ++ str "(의심)" = str "주민등록번호(의심)") := by decide
    rw [rrn_mem_stages text addrKw cands PRIORITY_REST _ hrest d hd,
      rrn_mem_stages text addrKw cands' PRIORITY_REST _ hrest d hd]
    have hstage : scanStage text addrKw cands [] (str "주민등록번호")
        = scanStage text addrKw cands' [] (str "주민등록번호") := by
      simp only [scanStage, hc]
    rw [hstage]

def wText5 : List Char := str "plm 900101-2023451 oky 110121234567 tt"

def wCands5a : List Char → List (Nat × Nat) := fun t =>
  if t = str "주민등록번호" then [(4, 18)]
  else if t = str "계좌번호" then [(23, 35)]
  else []

def wCands5b : List Char → List (Nat × Nat) := fun t =>
  if t = str "주민등록번호" then [(4, 18)] else []

def wDetectedDefault : Detected := ⟨[], [], 0, 0, [], [], [], [], false, false⟩

/-- C5 witness: on a text carrying an RRN match at [4,18) and an account
match at [23,35), dropping the account candidates leaves the RRN span in
place, and the two retained spans do not overlap. -/
theorem wit_C5_priority_exclusion :
    (((detect_sensitive_info_regex wText5 [] wCands5a).headD wDetectedDefault
        ∈ detect_sensitive_info_regex wText5 [] wCands5a)
      ↔ ((detect_sensitive_info_regex wText5 [] wCands5a).headD wDetectedDefault
        ∈ detect_sensitive_info_regex wText5 [] wCands5b))
    ∧ is_overlapping
        ((detect_sensitive_info_regex wText5 [] wCands5a).headD wDetectedDefault).start
        ((detect_sensitive_info_regex wText5 [] wCands5a).headD wDetectedDefault).stop
        ((detect_sensitive_info_regex wText5 [] wCands5a).getD 1 wDetectedDefault).start
        ((detect_sensitive_info_regex wText5 [] wCands5a).getD 1 wDetectedDefault).stop
      = false :=
  ⟨(thm_C5_priority_exclusion wText5 [] wCands5a wCands5b (by decide)).2 _ (by decide),
   (thm_C5_priority_exclusion wText5 [] wCands5a wCands5b (by decide)).1 _ (by decide) _ (by decide)
     (by decide)⟩
